import Mathlib

/-!
Shallow embedding of the ente-auth browser extension login state machine
(`src/login/App.tsx`), the SRP verification flow (`shared/srp.ts`), the
auth API client (`shared/api-auth.ts`) and the background sync module
(`background/sync.ts`), with theorems checking specification claims.

Asynchronous handlers are modelled as pure functions taking the outcomes of
their awaited calls (network results, background responses) as parameters and
returning the new component state together with the list of observable
effects (network requests, extension messages, tab and timer operations)
they emit, in order.
-/

namespace EnteAuth

/-- Steps of the login state machine (`type Step` in `src/login/App.tsx`). -/
inductive Step where
  | email
  | password
  | emailOtt
  | passwordDecrypt
  | twoFactor
  | passkeyChoice
  | passkey
  | success
  deriving DecidableEq, Repr

/-- Key attributes for deriving the master key (`KeyAttributes` in `shared/types.ts`). -/
structure KeyAttributes where
  kekSalt : String
  opsLimit : Nat
  memLimit : Nat
  encryptedKey : String
  keyDecryptionNonce : String
  publicKey : String
  encryptedSecretKey : String
  secretKeyDecryptionNonce : String
  deriving DecidableEq, Repr

/-- SRP attributes returned by the server (`SRPAttributes` in `shared/types.ts`). -/
structure SRPAttributes where
  srpUserID : String
  srpSalt : String
  memLimit : Nat
  opsLimit : Nat
  kekSalt : String
  isEmailMFAEnabled : Bool
  deriving DecidableEq, Repr

/-- Response from SRP verification (`SRPVerificationResponse` in `shared/types.ts`).
Fields the handlers test for presence or truthiness are optional. -/
structure SRPVerificationResponse where
  id : Nat
  keyAttributes : Option KeyAttributes
  encryptedToken : Option String
  token : Option String
  srpM2 : String
  twoFactorSessionID : Option String
  passkeySessionID : Option String
  twoFactorSessionIDV2 : Option String
  deriving DecidableEq, Repr

/-- Response from email verification (`EmailVerificationResponse` in `shared/types.ts`). -/
structure EmailVerificationResponse where
  id : Nat
  keyAttributes : Option KeyAttributes
  encryptedToken : Option String
  token : Option String
  twoFactorSessionID : Option String
  passkeySessionID : Option String
  twoFactorSessionIDV2 : Option String
  deriving DecidableEq, Repr

/-- Response from two-factor or passkey authorization
(`TwoFactorAuthorizationResponse` in `shared/types.ts`). The TypeScript type
declares `keyAttributes` and `encryptedToken` required, but the handlers in
`App.tsx` guard their runtime presence (`if (kek && keyAttrs && encToken)`),
so they are modelled as optional. -/
structure TwoFactorAuthorizationResponse where
  id : Nat
  keyAttributes : Option KeyAttributes
  encryptedToken : Option String
  deriving DecidableEq, Repr

/-- A thrown JavaScript value as the catch handlers in `App.tsx` see it:
either an `Error` carrying a message, or some non-`Error` value. -/
inductive JsValue where
  | mkError (message : String)
  | nonError
  deriving DecidableEq, Repr

/-- The pattern `e instanceof Error ? e.message : fallback` used by every
catch handler in `App.tsx`. -/
def jsErrorMessage (e : JsValue) (fallback : String) : String :=
  match e with
  | .mkError m => m
  | .nonError => fallback

/-- JavaScript truthiness of an optional string: `undefined` and `""` are falsy. -/
def jsTruthyStr (o : Option String) : Bool :=
  match o with
  | some s => s ≠ ""
  | none => false

/-- JavaScript `a || b` on optional strings. -/
def jsOrStr (a b : Option String) : Option String :=
  if jsTruthyStr a then a else b

/-- JavaScript `String.prototype.trim`: strip leading and trailing whitespace.
Defined structurally over the character list (unlike `String.trim`) so that
witnesses can be checked by evaluation. -/
def jsTrim (s : String) : String :=
  String.mk (((s.data.dropWhile Char.isWhitespace).reverse.dropWhile Char.isWhitespace).reverse)

/-- The cryptographic primitives of `shared/crypto.ts` (libsodium wrappers, not
among the provided sources), taken as an abstract parameter. Byte strings are
modelled as `String`; fallible primitives return the thrown value on failure. -/
structure Crypto where
  deriveKey : String → String → Nat → Nat → Except JsValue String
  decryptBoxBytes : String → String → String → Except JsValue String
  boxSealOpenBytes : String → String → String → Except JsValue String
  toB64 : String → String
  toB64URLSafe : String → String
  deriveSubKeyBytes : String → Nat → Nat → String → Except JsValue String

/-- Decrypt the master key from key attributes using the KEK
(`decryptMasterKey` in `App.tsx`). -/
def decryptMasterKey (c : Crypto) (keyAttrs : KeyAttributes) (kek : String) :
    Except JsValue String :=
  (c.decryptBoxBytes keyAttrs.encryptedKey keyAttrs.keyDecryptionNonce kek).map c.toB64

/-- Decrypt a sealed token using the user key pair (`decryptToken` in `App.tsx`):
first decrypt the private key under the master key, then open the sealed box. -/
def decryptToken (c : Crypto) (encryptedToken : String) (keyAttrs : KeyAttributes)
    (masterKey : String) : Except JsValue String :=
  match c.decryptBoxBytes keyAttrs.encryptedSecretKey keyAttrs.secretKeyDecryptionNonce masterKey with
  | .error e => .error e
  | .ok privateKeyBytes =>
    match c.boxSealOpenBytes encryptedToken keyAttrs.publicKey (c.toB64 privateKeyBytes) with
    | .error e => .error e
    | .ok tokenBytes => .ok (c.toB64URLSafe tokenBytes)

/-- Observable effects of the login page: outgoing network requests, extension
messages, tab and timer operations. -/
inductive Effect where
  | netGetSRPAttributes (email : String)
  | netRequestOTT (email : String)
  | netVerifyEmail (email ott : String)
  | netCreateSession (body : List (String × String))
  | netVerifySession (body : List (String × String))
  | netVerifyTwoFactor (sessionID code : String)
  | netCheckPasskeyStatus (sessionID : String)
  | setSettingsMsg
  | loginCompleteMsg (token : String) (keyAttrs : KeyAttributes) (masterKey : String)
  | openTab (tab : Nat) (sessionID : String)
  | closeTab (tab : Nat)
  | setIntervalTimer (id : Nat)
  | clearIntervalTimer (id : Nat)
  | setTimeoutTimer (id : Nat)
  | clearTimeoutTimer (id : Nat)
  deriving DecidableEq, Repr

/-- State of the login page component: current step, inputs, stash fields and
the mutable refs of `App.tsx`. Timer ids and tab handles are drawn from the
`nextTimerId` and `nextTabId` counters. -/
structure AppState where
  step : Step
  email : String
  password : String
  ottCode : String
  twoFactorCode : String
  serverUrl : String
  accountsUrl : String
  error : Option String
  loading : Bool
  srpAttributes : Option SRPAttributes
  twoFactorSessionID : Option String
  passkeySessionID : Option String
  stashedEncryptedToken : Option String
  stashedKeyAttributes : Option KeyAttributes
  stashedToken : Option String
  stashedMasterKey : Option String
  pollIntervalRef : Option Nat
  pollTimeoutRef : Option Nat
  passkeyTabRef : Option Nat
  passkeyComplete : Bool
  nextTimerId : Nat
  nextTabId : Nat
  deriving DecidableEq, Repr

/-- Background response to the LOGIN_COMPLETE message (`{success, error?}`). -/
structure BgLoginResult where
  success : Bool
  error : Option String
  deriving DecidableEq, Repr

/-- Send LOGIN_COMPLETE to the background and transition to success
(`completeLogin` in `App.tsx`). Custom server settings are saved first when
set. On a failed background response it throws
`Error(response.error || "Login failed")` and the step does not change. -/
def completeLogin (bg : BgLoginResult) (token : String) (keyAttrs : KeyAttributes)
    (masterKey : String) (s : AppState) : AppState × List Effect × Except JsValue Unit :=
  let settingsEffs : List Effect :=
    if jsTrim s.serverUrl ≠ "" ∨ jsTrim s.accountsUrl ≠ "" then [Effect.setSettingsMsg] else []
  let effs := settingsEffs ++ [Effect.loginCompleteMsg token keyAttrs masterKey]
  if bg.success then
    ({ s with step := Step.success }, effs, .ok ())
  else
    (s, effs, .error (.mkError (match bg.error with
      | some e => if e = "" then "Login failed" else e
      | none => "Login failed")))

/-- The two-factor submit handler (`handleTwoFactorSubmit` in `App.tsx`).
`verifyResult` is the outcome of the awaited `verifyTwoFactor` call, `bg` the
background response consumed by `completeLogin`. -/
def handleTwoFactorSubmit (c : Crypto)
    (verifyResult : Except JsValue TwoFactorAuthorizationResponse)
    (bg : BgLoginResult) (s : AppState) : AppState × List Effect :=
  match s.twoFactorSessionID with
  | none => (s, [])
  | some sid =>
    if jsTrim s.twoFactorCode = "" ∨ sid = "" then (s, [])
    else
      let s1 : AppState := { s with error := none, loading := true }
      let call : List Effect := [Effect.netVerifyTwoFactor sid (jsTrim s.twoFactorCode)]
      match verifyResult with
      | .error e =>
        ({ s1 with error := some (jsErrorMessage e "Verification failed"), loading := false }, call)
      | .ok response =>
        match s.stashedMasterKey, response.keyAttributes, response.encryptedToken with
        | some kek, some ka, some encTok =>
          if kek ≠ "" ∧ encTok ≠ "" then
            match decryptMasterKey c ka kek with
            | .error e =>
              ({ s1 with error := some (jsErrorMessage e "Verification failed"),
                         loading := false }, call)
            | .ok masterKey =>
              match decryptToken c encTok ka masterKey with
              | .error e =>
                ({ s1 with error := some (jsErrorMessage e "Verification failed"),
                           loading := false }, call)
              | .ok token =>
                let r := completeLogin bg token ka masterKey s1
                match r.2.2 with
                | .ok _ => ({ r.1 with loading := false }, call ++ r.2.1)
                | .error e =>
                  ({ r.1 with error := some (jsErrorMessage e "Verification failed"),
                              loading := false }, call ++ r.2.1)
          else
            ({ s1 with stashedKeyAttributes := response.keyAttributes,
                       stashedEncryptedToken := response.encryptedToken,
                       step := Step.passwordDecrypt, loading := false }, call)
        | _, _, _ =>
          ({ s1 with stashedKeyAttributes := response.keyAttributes,
                     stashedEncryptedToken := response.encryptedToken,
                     step := Step.passwordDecrypt, loading := false }, call)

/-- A baseline component state matching the initial `useState` values of `App.tsx`. -/
def initialAppState : AppState where
  step := Step.email
  email := ""
  password := ""
  ottCode := ""
  twoFactorCode := ""
  serverUrl := ""
  accountsUrl := ""
  error := none
  loading := false
  srpAttributes := none
  twoFactorSessionID := none
  passkeySessionID := none
  stashedEncryptedToken := none
  stashedKeyAttributes := none
  stashedToken := none
  stashedMasterKey := none
  pollIntervalRef := none
  pollTimeoutRef := none
  passkeyTabRef := none
  passkeyComplete := false
  nextTimerId := 0
  nextTabId := 0

/-- A concrete crypto instance where every primitive succeeds, used to
instantiate hypotheses in witnesses. -/
def cryptoW : Crypto where
  deriveKey := fun _ _ _ _ => .ok "kekW"
  decryptBoxBytes := fun _ _ _ => .ok "bytesW"
  boxSealOpenBytes := fun _ _ _ => .ok "tokenBytesW"
  toB64 := fun s => s
  toB64URLSafe := fun s => s
  deriveSubKeyBytes := fun _ _ _ _ => .ok "subW"

/-- Concrete key attributes used in witnesses. -/
def kaW : KeyAttributes :=
  ⟨"saltW", 4, 1024, "encKeyW", "nonce1W", "pubW", "encSecretW", "nonce2W"⟩

/-- C6: with a KEK stashed from the password step, completing two-factor goes
straight to success using the stashed KEK: the LOGIN_COMPLETE handoff carries
exactly the master key obtained by direct decryption of the same key
attributes with that KEK, and neither the resulting step nor the emitted
effects depend on the password field (the password is not consulted again). -/
theorem twoFactor_uses_stashed_kek (c : Crypto) (bg : BgLoginResult)
    (s : AppState) (sid kek encTok masterKey token : String) (ka : KeyAttributes)
    (r : TwoFactorAuthorizationResponse)
    (hsid : s.twoFactorSessionID = some sid) (hsid2 : sid ≠ "")
    (hcode : jsTrim s.twoFactorCode ≠ "")
    (hkek : s.stashedMasterKey = some kek) (hkek2 : kek ≠ "")
    (hka : r.keyAttributes = some ka)
    (het : r.encryptedToken = some encTok) (het2 : encTok ≠ "")
    (hmk : decryptMasterKey c ka kek = .ok masterKey)
    (htok : decryptToken c encTok ka masterKey = .ok token)
    (hbg : bg.success = true) :
    (handleTwoFactorSubmit c (.ok r) bg s).1.step = Step.success ∧
    Effect.loginCompleteMsg token ka masterKey ∈ (handleTwoFactorSubmit c (.ok r) bg s).2 ∧
    ∀ pw, (handleTwoFactorSubmit c (.ok r) bg { s with password := pw }).1.step = Step.success ∧
      (handleTwoFactorSubmit c (.ok r) bg { s with password := pw }).2 =
        (handleTwoFactorSubmit c (.ok r) bg s).2 := by
  simp [handleTwoFactorSubmit, hsid, hsid2, hcode, hkek, hkek2, hka, het, het2,
    hmk, htok, completeLogin, hbg]

/-- C6 witness at concrete inputs. -/
theorem twoFactor_uses_stashed_kek_witness :
    decryptMasterKey cryptoW kaW "kek1" = .ok "bytesW" ∧
    (handleTwoFactorSubmit cryptoW
      (.ok ⟨7, some kaW, some "encTok1"⟩) ⟨true, none⟩
      { initialAppState with
        step := Step.twoFactor, twoFactorCode := "123456",
        twoFactorSessionID := some "sess1", stashedMasterKey := some "kek1" }).1.step = Step.success :=
  ⟨rfl,
   (twoFactor_uses_stashed_kek cryptoW ⟨true, none⟩
      { initialAppState with
        step := Step.twoFactor, twoFactorCode := "123456",
        twoFactorSessionID := some "sess1", stashedMasterKey := some "kek1" }
      "sess1" "kek1" "encTok1" "bytesW" "tokenBytesW" kaW ⟨7, some kaW, some "encTok1"⟩
      rfl (by decide) (by decide) rfl (by decide) rfl
      (by decide) (by decide) rfl rfl rfl).1⟩

/-- C7: coming from the email-ott path, so with no stashed KEK, a successful
two-factor verification transitions to the password-decrypt step, never
directly to success, and no LOGIN_COMPLETE handoff is emitted. -/
theorem twoFactor_without_kek_goes_to_password_decrypt (c : Crypto) (bg : BgLoginResult)
    (s : AppState) (sid : String) (r : TwoFactorAuthorizationResponse)
    (hsid : s.twoFactorSessionID = some sid) (hsid2 : sid ≠ "")
    (hcode : jsTrim s.twoFactorCode ≠ "")
    (hkek : s.stashedMasterKey = none) :
    (handleTwoFactorSubmit c (.ok r) bg s).1.step = Step.passwordDecrypt ∧
    (handleTwoFactorSubmit c (.ok r) bg s).1.step ≠ Step.success ∧
    ∀ t ka mk, Effect.loginCompleteMsg t ka mk ∉ (handleTwoFactorSubmit c (.ok r) bg s).2 := by
  simp [handleTwoFactorSubmit, hsid, hsid2, hcode, hkek]

/-- C7 witness at concrete inputs. -/
theorem twoFactor_without_kek_goes_to_password_decrypt_witness :
    (({ initialAppState with
        step := Step.twoFactor, twoFactorCode := "654321",
        twoFactorSessionID := some "sess2" } : AppState).stashedMasterKey = none) ∧
    (handleTwoFactorSubmit cryptoW (.ok ⟨7, some kaW, some "encTok1"⟩) ⟨true, none⟩
      { initialAppState with
        step := Step.twoFactor, twoFactorCode := "654321",
        twoFactorSessionID := some "sess2" }).1.step = Step.passwordDecrypt :=
  ⟨by decide,
   (twoFactor_without_kek_goes_to_password_decrypt cryptoW ⟨true, none⟩
      { initialAppState with
        step := Step.twoFactor, twoFactorCode := "654321",
        twoFactorSessionID := some "sess2" }
      "sess2" ⟨7, some kaW, some "encTok1"⟩
      (by decide) (by decide) (by decide) (by decide)).1⟩

/-- The client-side SRP computations supplied by the external `fast-srp-hap`
library, taken as an abstract parameter. The client is created in
`generateSRPClient` from the SRP salt, the SRP user id, the login subkey and
a random ephemeral secret (`SRP.genKey`); `computeM1` and `checkM2` run after
`setB` and so additionally depend on the server ephemeral `srpB`. `checkM2`
reports whether the server counter-proof verifies; on failure the library
throws an error whose message is `checkM2ErrorMessage`. -/
structure SrpLib where
  computeA : String → String → String → String → String
  computeM1 : String → String → String → String → String → String
  checkM2 : String → String → String → String → String → String → Bool
  checkM2ErrorMessage : String

/-- Outcomes of the two SRP endpoint calls of this attempt. A non-2xx reply
is `.error` carrying the HTTP status and the response text; a create-session
success carries `(sessionID, srpB)`. -/
structure SrpServer where
  createSession : Except (Nat × String) (String × String)
  verifySession : Except (Nat × String) SRPVerificationResponse

/-- Derive the SRP login subkey from the KEK (`deriveSRPLoginSubKey` in
`shared/srp.ts`): the first 16 bytes (`slice(0, 16)`) of a 32-byte KDF subkey
bound to the context "loginctx", base64 encoded. -/
def deriveSRPLoginSubKey (c : Crypto) (kek : String) : Except JsValue String :=
  match c.deriveSubKeyBytes kek 32 1 "loginctx" with
  | .error e => .error e
  | .ok kekSubKeyBytes => .ok (c.toB64 (String.mk (kekSubKeyBytes.data.take 16)))

/-- The SRP verification flow (`verifySRP` in `shared/srp.ts`): derive the
login subkey, send A to create-session, compute and send M1 to
verify-session (401 becomes "Incorrect password"), then check the server M2
locally. Returns the issued requests with their JSON body fields, and either
the verification response or the thrown error. -/
def verifySRP (c : Crypto) (lib : SrpLib) (server : SrpServer)
    (srpAttributes : SRPAttributes) (kek : String) (eph : String) :
    List Effect × Except JsValue SRPVerificationResponse :=
  match deriveSRPLoginSubKey c kek with
  | .error e => ([], .error e)
  | .ok loginSubKey =>
    let srpA := lib.computeA srpAttributes.srpSalt srpAttributes.srpUserID loginSubKey eph
    let body1 : List (String × String) :=
      [("srpUserID", srpAttributes.srpUserID), ("srpA", srpA)]
    match server.createSession with
    | .error st =>
      let status := st.1
      let errText := st.2
      ([Effect.netCreateSession body1],
       .error (.mkError s!"SRP create-session failed ({status}): {errText}"))
    | .ok sb =>
      let sessionID := sb.1
      let srpB := sb.2
      let srpM1 :=
        lib.computeM1 srpAttributes.srpSalt srpAttributes.srpUserID loginSubKey eph srpB
      let body2 : List (String × String) :=
        [("sessionID", sessionID), ("srpUserID", srpAttributes.srpUserID), ("srpM1", srpM1)]
      let effs := [Effect.netCreateSession body1, Effect.netVerifySession body2]
      match server.verifySession with
      | .error st =>
        let status := st.1
        let errText := st.2
        if status = 401 then (effs, .error (.mkError "Incorrect password"))
        else (effs, .error (.mkError s!"SRP verify-session failed ({status}): {errText}"))
      | .ok response =>
        if lib.checkM2 srpAttributes.srpSalt srpAttributes.srpUserID loginSubKey eph srpB
            response.srpM2
        then (effs, .ok response)
        else (effs, .error (.mkError lib.checkM2ErrorMessage))

/-- Close the accounts tab opened for passkey verification (`closePasskeyTab`
in `App.tsx`): try to close the held handle, swallowing failures, and drop it. -/
def closePasskeyTab (s : AppState) : AppState × List Effect :=
  match s.passkeyTabRef with
  | some tab => ({ s with passkeyTabRef := none }, [Effect.closeTab tab])
  | none => ({ s with passkeyTabRef := none }, [])

/-- Stop the passkey polling interval and timeout (`stopPasskeyPolling` in
`App.tsx`): clear whichever timers are held and null the refs. -/
def stopPasskeyPolling (s : AppState) : AppState × List Effect :=
  let r1 : AppState × List Effect :=
    match s.pollIntervalRef with
    | some i => ({ s with pollIntervalRef := none }, [Effect.clearIntervalTimer i])
    | none => (s, [])
  match r1.1.pollTimeoutRef with
  | some t => ({ r1.1 with pollTimeoutRef := none }, r1.2 ++ [Effect.clearTimeoutTimer t])
  | none => (r1.1, r1.2)

/-- Install the 5-minute timeout and the 100ms interval after clearing any
previous ones (`startPasskeyPolling` in `App.tsx`); the setTimeout call comes
before the setInterval call. The session id only feeds the interval callback. -/
def startPasskeyPolling (_sessionID : String) (s : AppState) : AppState × List Effect :=
  let r := stopPasskeyPolling s
  let tId := r.1.nextTimerId
  let iId := r.1.nextTimerId + 1
  ({ r.1 with pollTimeoutRef := some tId, pollIntervalRef := some iId,
              nextTimerId := r.1.nextTimerId + 2 },
   r.2 ++ [Effect.setTimeoutTimer tId, Effect.setIntervalTimer iId])

/-- Start passkey verification (`startPasskeyVerification` in `App.tsx`):
clear the error, show loading, reset the completion guard, open a fresh
verification tab (overwriting the previous handle without closing it) and
restart polling. -/
def startPasskeyVerification (sessionID : String) (s : AppState) : AppState × List Effect :=
  let s1 : AppState := { s with error := none, loading := true, passkeyComplete := false }
  let tab := s1.nextTabId
  let s2 : AppState := { s1 with passkeyTabRef := some tab, nextTabId := s1.nextTabId + 1 }
  let r := startPasskeyPolling sessionID s2
  (r.1, Effect.openTab tab sessionID :: r.2)

/-- The password submit handler on the SRP path (`handlePasswordSubmit` in
`App.tsx`): derive the KEK, run SRP verification, stash the KEK when a second
factor follows, branch on the available second factors, else decrypt the
master key and token inline and complete login. `eph` is the random SRP
client ephemeral of this attempt. -/
def handlePasswordSubmit (c : Crypto) (lib : SrpLib) (server : SrpServer)
    (bg : BgLoginResult) (eph : String) (s : AppState) : AppState × List Effect :=
  if s.password = "" ∨ s.srpAttributes.isNone then (s, []) else
  match s.srpAttributes with
  | none => (s, [])
  | some attrs =>
    let s1 : AppState := { s with error := none, loading := true }
    match c.deriveKey s.password attrs.kekSalt attrs.opsLimit attrs.memLimit with
    | .error e =>
      ({ s1 with loading := false, error := some (jsErrorMessage e "Login failed") }, [])
    | .ok kek =>
      let sr := verifySRP c lib server attrs kek eph
      match sr.2 with
      | .error e =>
        ({ s1 with loading := false, error := some (jsErrorMessage e "Login failed") }, sr.1)
      | .ok srpResponse =>
        let hasPasskey := jsTruthyStr srpResponse.passkeySessionID
        let hasTOTP := jsTruthyStr srpResponse.twoFactorSessionID ∨
          jsTruthyStr srpResponse.twoFactorSessionIDV2
        let effectiveTwoFactorSessionID :=
          jsOrStr srpResponse.twoFactorSessionID srpResponse.twoFactorSessionIDV2
        let s2 : AppState :=
          if hasPasskey ∨ hasTOTP then
            { s1 with stashedMasterKey := some kek,
                      stashedKeyAttributes :=
                        match srpResponse.keyAttributes with
                        | some ka => some ka
                        | none => s1.stashedKeyAttributes }
          else s1
        if hasPasskey ∧ hasTOTP then
          ({ s2 with passkeySessionID := srpResponse.passkeySessionID,
                     twoFactorSessionID := effectiveTwoFactorSessionID,
                     loading := false, step := Step.passkeyChoice }, sr.1)
        else if hasPasskey then
          let s3 : AppState := { s2 with passkeySessionID := srpResponse.passkeySessionID,
                                         step := Step.passkey }
          match srpResponse.passkeySessionID with
          | some sid =>
            let r := startPasskeyVerification sid s3
            (r.1, sr.1 ++ r.2)
          | none => (s3, sr.1)
        else if hasTOTP then
          ({ s2 with twoFactorSessionID := effectiveTwoFactorSessionID,
                     loading := false, step := Step.twoFactor }, sr.1)
        else
          match srpResponse.keyAttributes with
          | none =>
            ({ s2 with loading := false,
                       error := some "No key attributes in SRP response" }, sr.1)
          | some keyAttrs =>
            match decryptMasterKey c keyAttrs kek with
            | .error e =>
              ({ s2 with loading := false,
                         error := some (jsErrorMessage e "Login failed") }, sr.1)
            | .ok masterKey =>
              let tokenRes : Except JsValue String :=
                if jsTruthyStr srpResponse.token then .ok (srpResponse.token.getD "")
                else if jsTruthyStr srpResponse.encryptedToken then
                  decryptToken c (srpResponse.encryptedToken.getD "") keyAttrs masterKey
                else .error (.mkError "No token in SRP response")
              match tokenRes with
              | .error e =>
                ({ s2 with loading := false,
                           error := some (jsErrorMessage e "Login failed") }, sr.1)
              | .ok token =>
                let r := completeLogin bg token keyAttrs masterKey s2
                match r.2.2 with
                | .ok _ => ({ r.1 with loading := false }, sr.1 ++ r.2.1)
                | .error e =>
                  ({ r.1 with loading := false,
                              error := some (jsErrorMessage e "Login failed") },
                   sr.1 ++ r.2.1)

/-- The password-decrypt submit handler (`handlePasswordDecryptSubmit` in
`App.tsx`): derive the KEK from the password using the stashed key
attributes, decrypt the master key and the stashed token locally, then
complete login. Every thrown value is rendered by the shared catch pattern
with fallback "Incorrect password"; no server request is issued. -/
def handlePasswordDecryptSubmit (c : Crypto) (bg : BgLoginResult) (s : AppState) :
    AppState × List Effect :=
  if s.password = "" ∨ s.stashedKeyAttributes.isNone then (s, []) else
  match s.stashedKeyAttributes with
  | none => (s, [])
  | some ka =>
    let s1 : AppState := { s with error := none, loading := true }
    match c.deriveKey s.password ka.kekSalt ka.opsLimit ka.memLimit with
    | .error e =>
      ({ s1 with error := some (jsErrorMessage e "Incorrect password"), loading := false }, [])
    | .ok kek =>
      match decryptMasterKey c ka kek with
      | .error e =>
        ({ s1 with error := some (jsErrorMessage e "Incorrect password"), loading := false }, [])
      | .ok masterKey =>
        if jsTruthyStr s.stashedEncryptedToken then
          match decryptToken c (s.stashedEncryptedToken.getD "") ka masterKey with
          | .error e =>
            ({ s1 with error := some (jsErrorMessage e "Incorrect password"),
                       loading := false }, [])
          | .ok token =>
            let r := completeLogin bg token ka masterKey s1
            match r.2.2 with
            | .ok _ => ({ r.1 with loading := false }, r.2.1)
            | .error e =>
              ({ r.1 with error := some (jsErrorMessage e "Incorrect password"),
                          loading := false }, r.2.1)
        else
          ({ s1 with error := some "No encrypted token available", loading := false }, [])

/-- Concrete SRP attributes used in witnesses and counterexamples. -/
def attrsW : SRPAttributes := ⟨"user1", "srpSaltW", 1024, 4, "kekSaltW", false⟩

/-- A concrete SRP library instance whose M2 check always fails. -/
def libBadM2 : SrpLib where
  computeA := fun _ _ _ _ => "A1"
  computeM1 := fun _ _ _ _ _ => "M1x"
  checkM2 := fun _ _ _ _ _ _ => false
  checkM2ErrorMessage := "M2 mismatch"

/-- A concrete SRP library instance whose M2 check always succeeds. -/
def libOkM2 : SrpLib where
  computeA := fun _ _ _ _ => "A1"
  computeM1 := fun _ _ _ _ _ => "M1x"
  checkM2 := fun _ _ _ _ _ _ => true
  checkM2ErrorMessage := "M2 mismatch"

/-- A concrete SRP server whose calls both succeed, returning no second factor. -/
def serverOkW : SrpServer where
  createSession := .ok ("sess9", "B1")
  verifySession := .ok ⟨3, some kaW, some "encTok9", none, "M2srv", none, none, none⟩

/-- C2 counterexample: at a concrete input where the local SRP M2 check
fails during the password step, the machine stays on the password step (with
the thrown message as the step error); it does not reset to the email step
as the claim states. -/
theorem srp_m2_failure_no_reset_counterexample :
    (handlePasswordSubmit cryptoW libBadM2 serverOkW ⟨true, none⟩ "eph1"
      { initialAppState with
        step := Step.password, password := "pw",
        srpAttributes := some attrsW }).1.step = Step.password ∧
    (handlePasswordSubmit cryptoW libBadM2 serverOkW ⟨true, none⟩ "eph1"
      { initialAppState with
        step := Step.password, password := "pw",
        srpAttributes := some attrsW }).1.step ≠ Step.email ∧
    (handlePasswordSubmit cryptoW libBadM2 serverOkW ⟨true, none⟩ "eph1"
      { initialAppState with
        step := Step.password, password := "pw",
        srpAttributes := some attrsW }).1.error = some "M2 mismatch" := by
  decide

/-- C2 amended: a failure of the local SRP M2 counter-proof check during the
password step is fatal to that attempt only in the sense that the generic
catch handler reports the thrown message as the step error: the machine
remains on the password step, does not advance, and emits no LOGIN_COMPLETE
handoff; it does not reset to the initial email step. -/
theorem srp_m2_failure_stays_on_password (c : Crypto) (lib : SrpLib) (server : SrpServer)
    (bg : BgLoginResult) (eph : String) (s : AppState) (attrs : SRPAttributes)
    (kek subKey sid srpB : String) (resp : SRPVerificationResponse)
    (hstep : s.step = Step.password)
    (hpw : s.password ≠ "")
    (hattrs : s.srpAttributes = some attrs)
    (hkek : c.deriveKey s.password attrs.kekSalt attrs.opsLimit attrs.memLimit = .ok kek)
    (hsub : deriveSRPLoginSubKey c kek = .ok subKey)
    (hcreate : server.createSession = .ok (sid, srpB))
    (hverify : server.verifySession = .ok resp)
    (hm2 : lib.checkM2 attrs.srpSalt attrs.srpUserID subKey eph srpB resp.srpM2 = false) :
    (handlePasswordSubmit c lib server bg eph s).1.step = Step.password ∧
    (handlePasswordSubmit c lib server bg eph s).1.error = some lib.checkM2ErrorMessage ∧
    ∀ t ka mk, Effect.loginCompleteMsg t ka mk ∉ (handlePasswordSubmit c lib server bg eph s).2 := by
  simp [handlePasswordSubmit, verifySRP, hstep, hpw, hattrs, hkek, hsub, hcreate,
    hverify, hm2, jsErrorMessage]

/-- C2 amended witness at concrete inputs. -/
theorem srp_m2_failure_stays_on_password_witness :
    libBadM2.checkM2 attrsW.srpSalt attrsW.srpUserID "subW" "eph1" "B1" "M2srv" = false ∧
    (handlePasswordSubmit cryptoW libBadM2 serverOkW ⟨false, some "nope"⟩ "eph1"
      { initialAppState with
        step := Step.password, password := "pw2",
        srpAttributes := some attrsW }).1.error = some libBadM2.checkM2ErrorMessage :=
  ⟨rfl,
   (srp_m2_failure_stays_on_password cryptoW libBadM2 serverOkW ⟨false, some "nope"⟩ "eph1"
      { initialAppState with
        step := Step.password, password := "pw2", srpAttributes := some attrsW }
      attrsW "kekW" "subW" "sess9" "B1" ⟨3, some kaW, some "encTok9", none, "M2srv", none, none, none⟩
      rfl (by decide) rfl rfl rfl rfl rfl rfl).2.1⟩

/-- A concrete crypto instance whose authenticated decryption fails with a
library error message, modelling a wrong-password decryption failure (the
`DecryptionError` of the spec taxonomy, thrown by the missing
`shared/crypto.ts` as a JavaScript `Error`). -/
def cryptoBadBox : Crypto where
  deriveKey := fun _ _ _ _ => .ok "kekW"
  decryptBoxBytes := fun _ _ _ => .error (.mkError "could not open secret box")
  boxSealOpenBytes := fun _ _ _ => .error (.mkError "could not open sealed box")
  toB64 := fun s => s
  toB64URLSafe := fun s => s
  deriveSubKeyBytes := fun _ _ _ _ => .ok "subW"

/-- C3 counterexample: at a concrete input where authenticated decryption
fails with a JavaScript `Error` carrying the library message (a wrong
password), the password-decrypt step shows that underlying message, not the
exact string "Incorrect password"; the machine does remain on the step. -/
theorem password_decrypt_shows_library_message_counterexample :
    (handlePasswordDecryptSubmit cryptoBadBox ⟨true, none⟩
      { initialAppState with
        step := Step.passwordDecrypt, password := "wrong-pw",
        stashedKeyAttributes := some kaW,
        stashedEncryptedToken := some "encTok1" }).1.error =
      some "could not open secret box" ∧
    (handlePasswordDecryptSubmit cryptoBadBox ⟨true, none⟩
      { initialAppState with
        step := Step.passwordDecrypt, password := "wrong-pw",
        stashedKeyAttributes := some kaW,
        stashedEncryptedToken := some "encTok1" }).1.error ≠ some "Incorrect password" ∧
    (handlePasswordDecryptSubmit cryptoBadBox ⟨true, none⟩
      { initialAppState with
        step := Step.passwordDecrypt, password := "wrong-pw",
        stashedKeyAttributes := some kaW,
        stashedEncryptedToken := some "encTok1" }).1.step = Step.passwordDecrypt := by
  decide

/-- C3 amended: on any failure of KEK derivation or of authenticated
decryption at the password-decrypt step, the machine remains on the
password-decrypt step and emits no LOGIN_COMPLETE handoff; the error shown
is the thrown error message when the failure is a JavaScript `Error` (as
library decryption failures are), with "Incorrect password" shown only as
the fallback for a non-`Error` thrown value. -/
theorem password_decrypt_failure_stays (c : Crypto) (bg : BgLoginResult) (s : AppState)
    (ka : KeyAttributes) (e : JsValue)
    (hpw : s.password ≠ "")
    (hka : s.stashedKeyAttributes = some ka)
    (hstep : s.step = Step.passwordDecrypt)
    (hfail : c.deriveKey s.password ka.kekSalt ka.opsLimit ka.memLimit = .error e ∨
      ∃ kek, c.deriveKey s.password ka.kekSalt ka.opsLimit ka.memLimit = .ok kek ∧
        decryptMasterKey c ka kek = .error e) :
    (handlePasswordDecryptSubmit c bg s).1.step = Step.passwordDecrypt ∧
    (handlePasswordDecryptSubmit c bg s).1.error =
      some (jsErrorMessage e "Incorrect password") ∧
    ∀ t ka2 mk, Effect.loginCompleteMsg t ka2 mk ∉ (handlePasswordDecryptSubmit c bg s).2 := by
  rcases hfail with h | ⟨kek, h1, h2⟩
  · simp [handlePasswordDecryptSubmit, hpw, hka, hstep, h]
  · simp [handlePasswordDecryptSubmit, hpw, hka, hstep, h1, h2]

/-- C3 amended witness at concrete inputs. -/
theorem password_decrypt_failure_stays_witness :
    decryptMasterKey cryptoBadBox kaW "kekW" = .error (.mkError "could not open secret box") ∧
    (handlePasswordDecryptSubmit cryptoBadBox ⟨true, none⟩
      { initialAppState with
        step := Step.passwordDecrypt, password := "wrong-pw",
        stashedKeyAttributes := some kaW,
        stashedEncryptedToken := some "encTok1" }).1.error =
      some (jsErrorMessage (.mkError "could not open secret box") "Incorrect password") :=
  ⟨rfl,
   (password_decrypt_failure_stays cryptoBadBox ⟨true, none⟩
      { initialAppState with
        step := Step.passwordDecrypt, password := "wrong-pw",
        stashedKeyAttributes := some kaW, stashedEncryptedToken := some "encTok1" }
      kaW (.mkError "could not open secret box")
      (by decide) rfl rfl (Or.inr ⟨"kekW", rfl, rfl⟩)).2.1⟩

/-- Extract the JSON body of an SRP endpoint request, if the effect is one. -/
def srpRequestBody : Effect → Option (List (String × String))
  | Effect.netCreateSession b => some b
  | Effect.netVerifySession b => some b
  | _ => none

/-- The JSON bodies of all SRP endpoint requests among a list of effects. -/
def srpRequestBodies (effs : List Effect) : List (List (String × String)) :=
  effs.filterMap srpRequestBody

theorem srpRequestBodies_append (a b : List Effect) :
    srpRequestBodies (a ++ b) = srpRequestBodies a ++ srpRequestBodies b := by
  simp [srpRequestBodies]

theorem srpRequestBodies_nil : srpRequestBodies [] = [] := rfl

theorem srpRequestBodies_two_requests (b1 b2 : List (String × String)) :
    srpRequestBodies [Effect.netCreateSession b1, Effect.netVerifySession b2] = [b1, b2] := by
  simp [srpRequestBodies, srpRequestBody]

theorem srpRequestBodies_stopPasskeyPolling (s : AppState) :
    srpRequestBodies (stopPasskeyPolling s).2 = [] := by
  unfold stopPasskeyPolling
  rcases hI : s.pollIntervalRef with _ | i <;> rcases hT : s.pollTimeoutRef with _ | t <;>
    simp [hI, hT, srpRequestBodies, srpRequestBody]

theorem srpRequestBodies_startPasskeyPolling (sid : String) (s : AppState) :
    srpRequestBodies (startPasskeyPolling sid s).2 = [] := by
  unfold startPasskeyPolling
  rw [srpRequestBodies_append, srpRequestBodies_stopPasskeyPolling]
  simp [srpRequestBodies, srpRequestBody]

theorem srpRequestBodies_startPasskeyVerification (sid : String) (s : AppState) :
    srpRequestBodies (startPasskeyVerification sid s).2 = [] := by
  unfold startPasskeyVerification
  have h := srpRequestBodies_startPasskeyPolling sid
    { s with error := none, loading := true, passkeyComplete := false,
             passkeyTabRef := some s.nextTabId, nextTabId := s.nextTabId + 1 }
  simp only [srpRequestBodies, List.filterMap] at h ⊢
  simp [srpRequestBody, h]

theorem srpRequestBodies_completeLogin (bg : BgLoginResult) (token : String)
    (ka : KeyAttributes) (mk : String) (s : AppState) :
    srpRequestBodies (completeLogin bg token ka mk s).2.1 = [] := by
  unfold completeLogin
  split <;> split <;> simp [srpRequestBodies, srpRequestBody]

theorem srpRequestBodies_cons_requests (b1 b2 : List (String × String)) (tail : List Effect)
    (h : srpRequestBodies tail = []) :
    srpRequestBodies
      (Effect.netCreateSession b1 :: Effect.netVerifySession b2 :: tail) = [b1, b2] := by
  have h2 : tail.filterMap srpRequestBody = [] := h
  simp [srpRequestBodies, srpRequestBody, h2]

theorem verifySRP_requests (c : Crypto) (lib : SrpLib) (server : SrpServer)
    (attrs : SRPAttributes) (kek eph subKey sid srpB : String)
    (hsub : deriveSRPLoginSubKey c kek = .ok subKey)
    (hcreate : server.createSession = .ok (sid, srpB)) :
    (verifySRP c lib server attrs kek eph).1 =
      [Effect.netCreateSession
         [("srpUserID", attrs.srpUserID),
          ("srpA", lib.computeA attrs.srpSalt attrs.srpUserID subKey eph)],
       Effect.netVerifySession
         [("sessionID", sid), ("srpUserID", attrs.srpUserID),
          ("srpM1", lib.computeM1 attrs.srpSalt attrs.srpUserID subKey eph srpB)]] := by
  unfold verifySRP
  rw [hsub, hcreate]
  rcases hv : server.verifySession with st | resp
  · simp only [hv]
    split <;> rfl
  · simp only [hv]
    split <;> rfl

/-- The bodies of the SRP requests sent by the password step, explicitly. -/
theorem password_step_requests (c : Crypto) (lib : SrpLib) (server : SrpServer)
    (bg : BgLoginResult) (eph : String) (s : AppState) (attrs : SRPAttributes)
    (kek subKey sid srpB : String)
    (hpw : s.password ≠ "")
    (hattrs : s.srpAttributes = some attrs)
    (hkek : c.deriveKey s.password attrs.kekSalt attrs.opsLimit attrs.memLimit = .ok kek)
    (hsub : deriveSRPLoginSubKey c kek = .ok subKey)
    (hcreate : server.createSession = .ok (sid, srpB)) :
    srpRequestBodies (handlePasswordSubmit c lib server bg eph s).2 =
      [[("srpUserID", attrs.srpUserID),
        ("srpA", lib.computeA attrs.srpSalt attrs.srpUserID subKey eph)],
       [("sessionID", sid), ("srpUserID", attrs.srpUserID),
        ("srpM1", lib.computeM1 attrs.srpSalt attrs.srpUserID subKey eph srpB)]] := by
  have hreq := verifySRP_requests c lib server attrs kek eph subKey sid srpB hsub hcreate
  unfold handlePasswordSubmit
  rw [hattrs]
  simp only [hpw, Option.isNone_some, Bool.false_eq_true, or_self, if_false, ite_false]
  rw [hkek]
  rcases hv : (verifySRP c lib server attrs kek eph).2 with e | resp <;>
    simp only [hv] <;>
    repeat' split
  all_goals
    simp [srpRequestBodies_append, hreq, srpRequestBodies_two_requests,
      srpRequestBodies_cons_requests, srpRequestBodies_startPasskeyVerification,
      srpRequestBodies_completeLogin, srpRequestBodies_nil]

theorem passwordDecrypt_no_requests (c : Crypto) (bg : BgLoginResult) (s : AppState) :
    srpRequestBodies (handlePasswordDecryptSubmit c bg s).2 = [] := by
  unfold handlePasswordDecryptSubmit
  dsimp only
  repeat' split
  all_goals
    first
      | rfl
      | exact srpRequestBodies_completeLogin _ _ _ _ _

/-- C4: no password on the wire. During the password step the two SRP request
bodies consist exactly of the SRP user id, the computed ephemeral value A,
the server-issued session id and the computed proof M1 — values derived only
from the login subkey, the client ephemeral and server-issued identifiers,
never from the raw password directly — hence whenever the password string
differs from those four derived strings it occurs in no request body; and
the password-decrypt step issues no server request at all. -/
theorem password_never_on_wire (c : Crypto) (lib : SrpLib) (server : SrpServer)
    (bg : BgLoginResult) (eph : String) (s : AppState) (attrs : SRPAttributes)
    (kek subKey sid srpB : String)
    (hpw : s.password ≠ "")
    (hattrs : s.srpAttributes = some attrs)
    (hkek : c.deriveKey s.password attrs.kekSalt attrs.opsLimit attrs.memLimit = .ok kek)
    (hsub : deriveSRPLoginSubKey c kek = .ok subKey)
    (hcreate : server.createSession = .ok (sid, srpB)) :
    srpRequestBodies (handlePasswordSubmit c lib server bg eph s).2 =
      [[("srpUserID", attrs.srpUserID),
        ("srpA", lib.computeA attrs.srpSalt attrs.srpUserID subKey eph)],
       [("sessionID", sid), ("srpUserID", attrs.srpUserID),
        ("srpM1", lib.computeM1 attrs.srpSalt attrs.srpUserID subKey eph srpB)]] ∧
    ((s.password ≠ attrs.srpUserID ∧
      s.password ≠ lib.computeA attrs.srpSalt attrs.srpUserID subKey eph ∧
      s.password ≠ sid ∧
      s.password ≠ lib.computeM1 attrs.srpSalt attrs.srpUserID subKey eph srpB) →
      ∀ body ∈ srpRequestBodies (handlePasswordSubmit c lib server bg eph s).2,
        ∀ kv ∈ body, kv.2 ≠ s.password) ∧
    (∀ c2 bg2 s2, srpRequestBodies (handlePasswordDecryptSubmit c2 bg2 s2).2 = []) := by
  have h := password_step_requests c lib server bg eph s attrs kek subKey sid srpB
    hpw hattrs hkek hsub hcreate
  refine ⟨h, ?_, fun c2 bg2 s2 => passwordDecrypt_no_requests c2 bg2 s2⟩
  rintro ⟨h1, h2, h3, h4⟩ body hbody kv hkv
  rw [h] at hbody
  simp only [List.mem_cons, List.not_mem_nil, or_false] at hbody
  rcases hbody with hb | hb
  · subst hb
    simp only [List.mem_cons, List.not_mem_nil, or_false] at hkv
    rcases hkv with hk | hk <;> subst hk
    · exact h1.symm
    · exact h2.symm
  · subst hb
    simp only [List.mem_cons, List.not_mem_nil, or_false] at hkv
    rcases hkv with hk | hk | hk <;> subst hk
    · exact h3.symm
    · exact h1.symm
    · exact h4.symm

/-- C4 witness at concrete inputs. -/
theorem password_never_on_wire_witness :
    deriveSRPLoginSubKey cryptoW "kekW" = .ok "subW" ∧
    srpRequestBodies (handlePasswordSubmit cryptoW libOkM2 serverOkW ⟨true, none⟩ "eph1"
      { initialAppState with
        step := Step.password, password := "hunter2",
        srpAttributes := some attrsW }).2 =
      [[("srpUserID", "user1"), ("srpA", "A1")],
       [("sessionID", "sess9"), ("srpUserID", "user1"), ("srpM1", "M1x")]] :=
  ⟨rfl,
   (password_never_on_wire cryptoW libOkM2 serverOkW ⟨true, none⟩ "eph1"
      { initialAppState with
        step := Step.password, password := "hunter2", srpAttributes := some attrsW }
      attrsW "kekW" "subW" "sess9" "B1"
      (by decide) rfl rfl rfl rfl).1⟩

/-- Continuation of the passkey interval callback installed by
`startPasskeyPolling` (`App.tsx`) once its awaited status request resolves;
it models an in-flight response being processed (the guard read before
issuing the request happened when the tick fired, while the guard was still
clear). `result` is the outcome of `checkPasskeyVerificationStatus`: `none`
while pending (HTTP 400), `some` once verified, `.error` for a thrown
failure. On success it re-checks and sets the completion guard, stops
polling, closes the tab and consumes the result; thrown errors are caught by
stopping polling and showing the message. -/
def passkeyTickResponse (c : Crypto) (bg : BgLoginResult)
    (result : Except JsValue (Option TwoFactorAuthorizationResponse))
    (s : AppState) : AppState × List Effect :=
  match result with
  | .error e =>
    let r := stopPasskeyPolling s
    ({ r.1 with loading := false,
                error := some (jsErrorMessage e "Passkey verification failed") }, r.2)
  | .ok none => (s, [])
  | .ok (some res) =>
    if s.passkeyComplete then (s, [])
    else
      let r1 := stopPasskeyPolling { s with passkeyComplete := true }
      let r2 := closePasskeyTab r1.1
      let effs := r1.2 ++ r2.2
      match r2.1.stashedMasterKey, res.keyAttributes, res.encryptedToken with
      | some kek, some ka, some encTok =>
        if kek ≠ "" ∧ encTok ≠ "" then
          match decryptMasterKey c ka kek with
          | .error e =>
            let r3 := stopPasskeyPolling r2.1
            ({ r3.1 with loading := false,
                         error := some (jsErrorMessage e "Passkey verification failed") },
             effs ++ r3.2)
          | .ok masterKey =>
            match decryptToken c encTok ka masterKey with
            | .error e =>
              let r3 := stopPasskeyPolling r2.1
              ({ r3.1 with loading := false,
                           error := some (jsErrorMessage e "Passkey verification failed") },
               effs ++ r3.2)
            | .ok token =>
              let r3 := completeLogin bg token ka masterKey r2.1
              match r3.2.2 with
              | .ok _ => ({ r3.1 with loading := false }, effs ++ r3.2.1)
              | .error e =>
                let r4 := stopPasskeyPolling r3.1
                ({ r4.1 with loading := false,
                             error := some (jsErrorMessage e "Passkey verification failed") },
                 effs ++ r3.2.1 ++ r4.2)
        else
          ({ r2.1 with stashedKeyAttributes := res.keyAttributes,
                       stashedEncryptedToken := res.encryptedToken,
                       loading := false, step := Step.passwordDecrypt }, effs)
      | _, _, _ =>
        ({ r2.1 with stashedKeyAttributes := res.keyAttributes,
                     stashedEncryptedToken := res.encryptedToken,
                     loading := false, step := Step.passwordDecrypt }, effs)

/-- The manual Check-status handler (`handleCheckPasskeyStatus` in
`App.tsx`). `result` is the outcome of its own status request. Unlike the
interval callback, it neither consults nor sets the `passkeyCompleteRef`
completion guard, and its catch handler neither stops polling nor clears
the loading flag. -/
def handleCheckPasskeyStatus (c : Crypto) (bg : BgLoginResult)
    (result : Except JsValue (Option TwoFactorAuthorizationResponse))
    (s : AppState) : AppState × List Effect :=
  match s.passkeySessionID with
  | none => (s, [])
  | some sid =>
    if sid = "" then (s, [])
    else
      let s0 : AppState := { s with error := none }
      let call : List Effect := [Effect.netCheckPasskeyStatus sid]
      match result with
      | .error e =>
        ({ s0 with error := some (jsErrorMessage e "Passkey verification failed") }, call)
      | .ok none =>
        ({ s0 with error := some "Verification not yet complete. Please complete the passkey verification in the opened tab." }, call)
      | .ok (some res) =>
        let r1 := stopPasskeyPolling s0
        let r2 := closePasskeyTab r1.1
        let effs := call ++ r1.2 ++ r2.2
        match r2.1.stashedMasterKey, res.keyAttributes, res.encryptedToken with
        | some kek, some ka, some encTok =>
          if kek ≠ "" ∧ encTok ≠ "" then
            match decryptMasterKey c ka kek with
            | .error e =>
              ({ r2.1 with error := some (jsErrorMessage e "Passkey verification failed") },
               effs)
            | .ok masterKey =>
              match decryptToken c encTok ka masterKey with
              | .error e =>
                ({ r2.1 with error := some (jsErrorMessage e "Passkey verification failed") },
                 effs)
              | .ok token =>
                let r3 := completeLogin bg token ka masterKey r2.1
                match r3.2.2 with
                | .ok _ => ({ r3.1 with loading := false }, effs ++ r3.2.1)
                | .error e =>
                  ({ r3.1 with error := some (jsErrorMessage e "Passkey verification failed") },
                   effs ++ r3.2.1)
          else
            ({ r2.1 with stashedKeyAttributes := res.keyAttributes,
                         stashedEncryptedToken := res.encryptedToken,
                         loading := false, step := Step.passwordDecrypt }, effs)
        | _, _, _ =>
          ({ r2.1 with stashedKeyAttributes := res.keyAttributes,
                       stashedEncryptedToken := res.encryptedToken,
                       loading := false, step := Step.passwordDecrypt }, effs)

/-- Number of LOGIN_COMPLETE handoffs in an effect list. -/
def loginCompletions (effs : List Effect) : Nat :=
  effs.countP (fun e => match e with
    | Effect.loginCompleteMsg _ _ _ => true
    | _ => false)

/-- A verified passkey status response carrying key attributes and a token. -/
def successRes : TwoFactorAuthorizationResponse := ⟨7, some kaW, some "encTok1"⟩

/-- The component state while waiting on passkey verification with a KEK
stashed from the password step: polling installed, tab open, guard clear. -/
def passkeyWaitState : AppState :=
  { initialAppState with
    step := Step.passkey, email := "user@x.io",
    passkeySessionID := some "sess1", stashedMasterKey := some "kek1",
    loading := true, pollTimeoutRef := some 0, pollIntervalRef := some 1,
    passkeyTabRef := some 0, nextTimerId := 2, nextTabId := 1 }

/-- C1: evaluation at the failing input. Two status responses for the same
attempt both indicate success: one consumed by the manual Check-status
handler, one by an in-flight interval tick processed right after. Because
the manual handler neither checks nor sets the completion guard, the
LOGIN_COMPLETE handoff fires twice — not exactly once as claimed. -/
theorem passkey_double_completion :
    loginCompletions
      ((handleCheckPasskeyStatus cryptoW ⟨true, none⟩ (.ok (some successRes))
          passkeyWaitState).2 ++
       (passkeyTickResponse cryptoW ⟨true, none⟩ (.ok (some successRes))
          (handleCheckPasskeyStatus cryptoW ⟨true, none⟩ (.ok (some successRes))
            passkeyWaitState).1).2) = 2 := by
  decide

/-- Operations that start or stop passkey verification, plus delivery of poll
responses: the alphabet over which the single-polling-loop invariant is
stated. `startVerification` is what both the auto-start after password or
OTT verification and the Try-again button invoke; `stopPolling` and
`closeTab` are the cleanup calls of the Cancel and switch-method actions. -/
inductive PasskeyOp where
  | startVerification (sessionID : String)
  | stopPolling
  | closeTab
  | tickResponse (result : Except JsValue (Option TwoFactorAuthorizationResponse))
  | manualCheck (result : Except JsValue (Option TwoFactorAuthorizationResponse))

/-- Apply one operation to the component state. -/
def applyPasskeyOp (c : Crypto) (bg : BgLoginResult) (op : PasskeyOp) (s : AppState) :
    AppState × List Effect :=
  match op with
  | .startVerification sid => startPasskeyVerification sid s
  | .stopPolling => stopPasskeyPolling s
  | .closeTab => closePasskeyTab s
  | .tickResponse r => passkeyTickResponse c bg r s
  | .manualCheck r => handleCheckPasskeyStatus c bg r s

/-- Run a sequence of operations, accumulating the emitted effects. -/
def runPasskeyOps (c : Crypto) (bg : BgLoginResult) (ops : List PasskeyOp) (s : AppState) :
    AppState × List Effect :=
  match ops with
  | [] => (s, [])
  | op :: rest =>
    let r := applyPasskeyOp c bg op s
    let r2 := runPasskeyOps c bg rest r.1
    (r2.1, r.2 ++ r2.2)

/-- Interpret one effect over the set of live interval timers. -/
def stepIntervals (active : List Nat) (e : Effect) : List Nat :=
  match e with
  | Effect.setIntervalTimer i => i :: active
  | Effect.clearIntervalTimer i => active.erase i
  | _ => active

/-- The live interval timers after a list of effects. -/
def intervalsAfter (effs : List Effect) (active : List Nat) : List Nat :=
  effs.foldl stepIntervals active

/-- Interpret one effect over the set of open verification tabs. -/
def stepTabs (tabs : List Nat) (e : Effect) : List Nat :=
  match e with
  | Effect.openTab t _ => t :: tabs
  | Effect.closeTab t => tabs.erase t
  | _ => tabs

/-- The open verification tabs after a list of effects. -/
def openTabsAfter (effs : List Effect) (tabs : List Nat) : List Nat :=
  effs.foldl stepTabs tabs

/-- The interval the component believes to be installed. -/
def intervalList (s : AppState) : List Nat :=
  match s.pollIntervalRef with
  | some i => [i]
  | none => []

/-- Consistency between the live interval timers and the component ref:
exactly the interval held by `pollIntervalRef` is live. -/
def IntervalInv (s : AppState) (active : List Nat) : Prop :=
  active = intervalList s

theorem intervalsAfter_append (a b : List Effect) (active : List Nat) :
    intervalsAfter (a ++ b) active = intervalsAfter b (intervalsAfter a active) := by
  simp [intervalsAfter]

theorem intervalsAfter_cons (e : Effect) (l : List Effect) (active : List Nat) :
    intervalsAfter (e :: l) active = intervalsAfter l (stepIntervals active e) := rfl

theorem stopPasskeyPolling_cleared (s : AppState) (active : List Nat)
    (h : IntervalInv s active) :
    (stopPasskeyPolling s).1.pollIntervalRef = none ∧
    (stopPasskeyPolling s).1.pollTimeoutRef = none ∧
    intervalsAfter (stopPasskeyPolling s).2 active = [] := by
  unfold IntervalInv intervalList at h
  unfold stopPasskeyPolling
  rcases hI : s.pollIntervalRef with _ | i <;> rcases hT : s.pollTimeoutRef with _ | t <;>
    rw [hI] at h <;> subst h <;>
    simp [hI, hT, intervalsAfter, stepIntervals]

theorem startPasskeyPolling_inv (sid : String) (s : AppState) (active : List Nat)
    (h : IntervalInv s active) :
    IntervalInv (startPasskeyPolling sid s).1
      (intervalsAfter (startPasskeyPolling sid s).2 active) := by
  obtain ⟨h1, h2, h3⟩ := stopPasskeyPolling_cleared s active h
  unfold startPasskeyPolling
  rw [intervalsAfter_append, h3]
  simp [IntervalInv, intervalList, intervalsAfter, stepIntervals]

theorem closePasskeyTab_state (s : AppState) :
    (closePasskeyTab s).1.pollIntervalRef = s.pollIntervalRef ∧
    intervalsAfter (closePasskeyTab s).2 active = active := by
  unfold closePasskeyTab
  rcases hT : s.passkeyTabRef <;> simp [intervalsAfter, stepIntervals]

theorem completeLogin_pollIntervalRef (bg : BgLoginResult) (token : String)
    (ka : KeyAttributes) (mk : String) (s : AppState) :
    (completeLogin bg token ka mk s).1.pollIntervalRef = s.pollIntervalRef := by
  unfold completeLogin
  split <;> split <;> rfl

theorem completeLogin_pollTimeoutRef (bg : BgLoginResult) (token : String)
    (ka : KeyAttributes) (mk : String) (s : AppState) :
    (completeLogin bg token ka mk s).1.pollTimeoutRef = s.pollTimeoutRef := by
  unfold completeLogin
  split <;> split <;> rfl

theorem intervalsAfter_completeLogin (bg : BgLoginResult) (token : String)
    (ka : KeyAttributes) (mk : String) (s : AppState) (active : List Nat) :
    intervalsAfter (completeLogin bg token ka mk s).2.1 active = active := by
  unfold completeLogin
  split <;> split <;> simp [intervalsAfter, stepIntervals]

theorem startPasskeyVerification_inv (sid : String) (s : AppState) (active : List Nat)
    (h : IntervalInv s active) :
    IntervalInv (startPasskeyVerification sid s).1
      (intervalsAfter (startPasskeyVerification sid s).2 active) := by
  unfold startPasskeyVerification
  have h2 : IntervalInv
      { s with error := none, loading := true, passkeyComplete := false,
               passkeyTabRef := some s.nextTabId, nextTabId := s.nextTabId + 1 } active := h
  have h3 := startPasskeyPolling_inv sid
    { s with error := none, loading := true, passkeyComplete := false,
             passkeyTabRef := some s.nextTabId, nextTabId := s.nextTabId + 1 } active h2
  simpa [intervalsAfter, stepIntervals] using h3

theorem stopPasskeyPolling_stopped (s : AppState)
    (h1 : s.pollIntervalRef = none) (h2 : s.pollTimeoutRef = none) :
    stopPasskeyPolling s = (s, []) := by
  unfold stopPasskeyPolling
  rw [h1]
  simp [h2]

theorem closePasskeyTab_refs (s : AppState) :
    (closePasskeyTab s).1.pollIntervalRef = s.pollIntervalRef ∧
    (closePasskeyTab s).1.pollTimeoutRef = s.pollTimeoutRef ∧
    (∀ active, intervalsAfter (closePasskeyTab s).2 active = active) := by
  unfold closePasskeyTab
  rcases hT : s.passkeyTabRef <;> simp [intervalsAfter, stepIntervals]

theorem passkeyTickResponse_inv (c : Crypto) (bg : BgLoginResult)
    (result : Except JsValue (Option TwoFactorAuthorizationResponse))
    (s : AppState) (active : List Nat) (h : IntervalInv s active) :
    IntervalInv (passkeyTickResponse c bg result s).1
      (intervalsAfter (passkeyTickResponse c bg result s).2 active) := by
  unfold passkeyTickResponse
  rcases result with e | r
  · obtain ⟨hs1, _, hs3⟩ := stopPasskeyPolling_cleared s active h
    simp [IntervalInv, intervalList, hs1, hs3]
  · rcases r with _ | res
    · exact h
    · by_cases hg : s.passkeyComplete = true
      · simp only [hg, if_true]
        exact h
      · simp only [hg, ite_false, Bool.false_eq_true]
        have hInv1 : IntervalInv { s with passkeyComplete := true } active := h
        obtain ⟨h1, h2, h3⟩ := stopPasskeyPolling_cleared _ active hInv1
        obtain ⟨hc1, hc2, hc3⟩ :=
          closePasskeyTab_refs (stopPasskeyPolling { s with passkeyComplete := true }).1
        have hcI : (closePasskeyTab
            (stopPasskeyPolling { s with passkeyComplete := true }).1).1.pollIntervalRef =
            none := by rw [hc1, h1]
        have hcT : (closePasskeyTab
            (stopPasskeyPolling { s with passkeyComplete := true }).1).1.pollTimeoutRef =
            none := by rw [hc2, h2]
        have heff : intervalsAfter
            ((stopPasskeyPolling { s with passkeyComplete := true }).2 ++
             (closePasskeyTab (stopPasskeyPolling { s with passkeyComplete := true }).1).2)
            active = [] := by
          rw [intervalsAfter_append, h3, hc3]
        have hstop2 := stopPasskeyPolling_stopped _ hcI hcT
        repeat' split
        all_goals
          simp_all [IntervalInv, intervalList, intervalsAfter_append, hstop2,
            completeLogin_pollIntervalRef, completeLogin_pollTimeoutRef,
            intervalsAfter_completeLogin, stopPasskeyPolling_stopped]

theorem handleCheckPasskeyStatus_inv (c : Crypto) (bg : BgLoginResult)
    (result : Except JsValue (Option TwoFactorAuthorizationResponse))
    (s : AppState) (active : List Nat) (h : IntervalInv s active) :
    IntervalInv (handleCheckPasskeyStatus c bg result s).1
      (intervalsAfter (handleCheckPasskeyStatus c bg result s).2 active) := by
  unfold handleCheckPasskeyStatus
  rcases hsid : s.passkeySessionID with _ | sid
  · exact h
  · by_cases hempty : sid = ""
    · simp only [hempty, ite_true]
      exact h
    · simp only [hempty, ite_false]
      rcases result with e | r
      · simpa [intervalsAfter, stepIntervals, IntervalInv, intervalList] using h
      · rcases r with _ | res
        · simpa [intervalsAfter, stepIntervals, IntervalInv, intervalList] using h
        · have hInv1 : IntervalInv { s with error := none } active := h
          obtain ⟨h1, h2, h3⟩ := stopPasskeyPolling_cleared _ active hInv1
          obtain ⟨hc1, hc2, hc3⟩ :=
            closePasskeyTab_refs (stopPasskeyPolling { s with error := none }).1
          have hcI : (closePasskeyTab
              (stopPasskeyPolling { s with error := none }).1).1.pollIntervalRef = none := by
            rw [hc1, h1]
          have hcT : (closePasskeyTab
              (stopPasskeyPolling { s with error := none }).1).1.pollTimeoutRef = none := by
            rw [hc2, h2]
          have hcall : intervalsAfter [Effect.netCheckPasskeyStatus sid] active = active := rfl
          have heff : intervalsAfter
              ([Effect.netCheckPasskeyStatus sid] ++
               (stopPasskeyPolling { s with error := none }).2 ++
               (closePasskeyTab (stopPasskeyPolling { s with error := none }).1).2)
              active = [] := by
            rw [intervalsAfter_append, intervalsAfter_append, hcall, h3, hc3]
          have hstop2 := stopPasskeyPolling_stopped _ hcI hcT
          repeat' split
          all_goals
            simp_all [IntervalInv, intervalList, intervalsAfter_append, intervalsAfter_cons,
              stepIntervals, hstop2, completeLogin_pollIntervalRef,
              completeLogin_pollTimeoutRef, intervalsAfter_completeLogin,
              stopPasskeyPolling_stopped]

theorem applyPasskeyOp_inv (c : Crypto) (bg : BgLoginResult) (op : PasskeyOp)
    (s : AppState) (active : List Nat) (h : IntervalInv s active) :
    IntervalInv (applyPasskeyOp c bg op s).1
      (intervalsAfter (applyPasskeyOp c bg op s).2 active) := by
  cases op with
  | startVerification sid => exact startPasskeyVerification_inv sid s active h
  | stopPolling =>
    obtain ⟨h1, _, h3⟩ := stopPasskeyPolling_cleared s active h
    simp [applyPasskeyOp, IntervalInv, intervalList, h1, h3]
  | closeTab =>
    obtain ⟨hc1, _, hc3⟩ := closePasskeyTab_refs s
    simpa [applyPasskeyOp, IntervalInv, intervalList, hc1, hc3] using h
  | tickResponse r => exact passkeyTickResponse_inv c bg r s active h
  | manualCheck r => exact handleCheckPasskeyStatus_inv c bg r s active h

theorem runPasskeyOps_inv (c : Crypto) (bg : BgLoginResult) (ops : List PasskeyOp) :
    ∀ s active, IntervalInv s active →
      IntervalInv (runPasskeyOps c bg ops s).1
        (intervalsAfter (runPasskeyOps c bg ops s).2 active) := by
  induction ops with
  | nil => intro s active h; exact h
  | cons op rest ih =>
    intro s active h
    have h1 := applyPasskeyOp_inv c bg op s active h
    have h2 := ih (applyPasskeyOp c bg op s).1
      (intervalsAfter (applyPasskeyOp c bg op s).2 active) h1
    simpa [runPasskeyOps, intervalsAfter_append] using h2

/-- C5 amended: at most one passkey polling loop is outstanding at any time;
every restart stops the previous polling loop (inside `startPasskeyPolling`)
before installing the new one, so after any sequence of start, stop, cleanup
and poll-response operations the set of live interval timers matches the
single held ref and has at most one element. However, a restart does not
close the previously opened out-of-band verification tab: it emits no close
for the old tab and simply overwrites the held handle with the fresh tab. -/
theorem passkey_single_polling_loop (c : Crypto) (bg : BgLoginResult)
    (ops : List PasskeyOp) (s : AppState) (active : List Nat)
    (h : IntervalInv s active) :
    IntervalInv (runPasskeyOps c bg ops s).1
      (intervalsAfter (runPasskeyOps c bg ops s).2 active) ∧
    (intervalsAfter (runPasskeyOps c bg ops s).2 active).length ≤ 1 ∧
    ∀ tab sid, s.passkeyTabRef = some tab →
      Effect.closeTab tab ∉ (startPasskeyVerification sid s).2 ∧
      (startPasskeyVerification sid s).1.passkeyTabRef = some s.nextTabId := by
  have hrun := runPasskeyOps_inv c bg ops s active h
  have hrun2 : intervalsAfter (runPasskeyOps c bg ops s).2 active =
      intervalList (runPasskeyOps c bg ops s).1 := hrun
  refine ⟨hrun, ?_, ?_⟩
  · rw [hrun2]
    unfold intervalList
    split <;> simp
  · intro tab sid htab
    constructor
    · unfold startPasskeyVerification startPasskeyPolling stopPasskeyPolling
      rcases hI : s.pollIntervalRef with _ | i <;> rcases hT : s.pollTimeoutRef with _ | t <;>
        simp [hI, hT]
    · unfold startPasskeyVerification startPasskeyPolling stopPasskeyPolling
      rcases hI : s.pollIntervalRef with _ | i <;> rcases hT : s.pollTimeoutRef with _ | t <;>
        simp [hI, hT]

/-- C5 amended witness at concrete inputs. -/
theorem passkey_single_polling_loop_witness :
    IntervalInv passkeyWaitState [1] ∧
    (intervalsAfter (runPasskeyOps cryptoW ⟨true, none⟩
        [PasskeyOp.startVerification "sess1", PasskeyOp.startVerification "sess1"]
        passkeyWaitState).2 [1]).length ≤ 1 :=
  ⟨rfl,
   (passkey_single_polling_loop cryptoW ⟨true, none⟩
      [PasskeyOp.startVerification "sess1", PasskeyOp.startVerification "sess1"]
      passkeyWaitState [1] rfl).2.1⟩

/-- C5 counterexample: restarting passkey verification (the Try-again path)
from a clean start opens a second tab without ever closing the first: after
two starts both tabs are live and no close of the first tab (handle 0) was
emitted, refuting the claim that every restart first closes the previously
opened tab. -/
theorem passkey_restart_keeps_old_tab_counterexample :
    (openTabsAfter (runPasskeyOps cryptoW ⟨true, none⟩
        [PasskeyOp.startVerification "sess1", PasskeyOp.startVerification "sess1"]
        initialAppState).2 []).length = 2 ∧
    Effect.closeTab 0 ∉ (runPasskeyOps cryptoW ⟨true, none⟩
        [PasskeyOp.startVerification "sess1", PasskeyOp.startVerification "sess1"]
        initialAppState).2 := by
  decide

/-- Polling cadence in milliseconds (`PASSKEY_POLL_INTERVAL` in `App.tsx`). -/
def PASSKEY_POLL_INTERVAL : Nat := 100

/-- Hard passkey wait timeout in milliseconds (`PASSKEY_TIMEOUT` in `App.tsx`). -/
def PASSKEY_TIMEOUT : Nat := 5 * 60 * 1000

/-- State of the passkey polling timers under a scheduler in which every
status response is still pending: elapsed time, liveness of the two timers,
the waiting indicator, the step error, and the times (ms after
`startPasskeyPolling`) at which poll requests were issued, most recent
first. -/
structure TimedPollState where
  now : Nat
  intervalActive : Bool
  timeoutActive : Bool
  loading : Bool
  error : Option String
  pollCalls : List Nat
  deriving DecidableEq, Repr

/-- Timer state right after `startPasskeyVerification` installed the timers:
waiting indicator shown, no error, both timers live, no call yet. -/
def timedPollStart : TimedPollState :=
  ⟨0, true, true, true, none, []⟩

/-- Advance the scheduler by one 100ms step. The timeout was registered
before the interval (`startPasskeyPolling` calls setTimeout first), so when
both are due at the same instant the timeout handler runs first; it mirrors
the setTimeout callback — `stopPasskeyPolling`, clear loading, set the
timeout error — and the interval tick at that same instant never fires. An
interval tick issues one status request (every response stays pending, so
the callback returns without further action). -/
def timedPollTick (s : TimedPollState) : TimedPollState :=
  let t := s.now + PASSKEY_POLL_INTERVAL
  if s.timeoutActive ∧ PASSKEY_TIMEOUT ≤ t then
    { s with now := t, intervalActive := false, timeoutActive := false,
             loading := false,
             error := some "Passkey verification timed out. Please try again." }
  else if s.intervalActive then
    { s with now := t, pollCalls := t :: s.pollCalls }
  else { s with now := t }

/-- Run `n` scheduler steps. -/
def runTimedPoll : Nat → TimedPollState → TimedPollState
  | 0, s => s
  | n + 1, s => timedPollTick (runTimedPoll n s)

/-- The poll request times of the first `k` ticks, most recent first. -/
def pollSchedule : Nat → List Nat
  | 0 => []
  | k + 1 => PASSKEY_POLL_INTERVAL * (k + 1) :: pollSchedule k

theorem pollSchedule_length (k : Nat) : (pollSchedule k).length = k := by
  induction k with
  | zero => rfl
  | succ k ih => simp [pollSchedule, ih]

theorem pollSchedule_mem (k : Nat) :
    ∀ t ∈ pollSchedule k, 0 < t ∧ t ≤ PASSKEY_POLL_INTERVAL * k ∧
      t % PASSKEY_POLL_INTERVAL = 0 := by
  induction k with
  | zero => intro t ht; simp [pollSchedule] at ht
  | succ k ih =>
    intro t ht
    simp only [pollSchedule, List.mem_cons] at ht
    rcases ht with h | h
    · subst h
      refine ⟨by simp [PASSKEY_POLL_INTERVAL], le_refl _, by simp [Nat.mul_mod_right]⟩
    · obtain ⟨h1, h2, h3⟩ := ih t h
      exact ⟨h1, h2.trans (by simp only [PASSKEY_POLL_INTERVAL]; omega), h3⟩

theorem runTimedPoll_running (k : Nat) (hk : k ≤ 2999) :
    runTimedPoll k timedPollStart =
      ⟨PASSKEY_POLL_INTERVAL * k, true, true, true, none, pollSchedule k⟩ := by
  induction k with
  | zero => rfl
  | succ k ih =>
    have hk2 : k ≤ 2999 := Nat.le_of_succ_le hk
    have hlt : ¬ (PASSKEY_TIMEOUT ≤ PASSKEY_POLL_INTERVAL * k + PASSKEY_POLL_INTERVAL) := by
      simp only [PASSKEY_TIMEOUT, PASSKEY_POLL_INTERVAL]
      omega
    rw [runTimedPoll, ih hk2]
    simp [timedPollTick, hlt, pollSchedule, Nat.mul_succ]

theorem runTimedPoll_timeout :
    runTimedPoll 3000 timedPollStart =
      ⟨PASSKEY_TIMEOUT, false, false, false,
       some "Passkey verification timed out. Please try again.",
       pollSchedule 2999⟩ := by
  have h := runTimedPoll_running 2999 (le_refl _)
  have h3000 : (3000 : Nat) = 2999 + 1 := rfl
  rw [h3000, runTimedPoll, h]
  simp [timedPollTick, PASSKEY_TIMEOUT, PASSKEY_POLL_INTERVAL]

theorem runTimedPoll_after (m : Nat) :
    runTimedPoll (3000 + m) timedPollStart =
      { runTimedPoll 3000 timedPollStart with
        now := PASSKEY_TIMEOUT + PASSKEY_POLL_INTERVAL * m } := by
  induction m with
  | zero => rw [runTimedPoll_timeout]; rfl
  | succ m ih =>
    have : 3000 + (m + 1) = (3000 + m) + 1 := by omega
    rw [this, runTimedPoll, ih, runTimedPoll_timeout]
    simp [timedPollTick, PASSKEY_TIMEOUT, PASSKEY_POLL_INTERVAL]
    omega

/-- C8: passkey polling checks status every 100ms and has a hard timeout of
exactly five minutes (`PASSKEY_POLL_INTERVAL = 100`,
`PASSKEY_TIMEOUT = 300000`). If every status response stays pending, then
after any number of 100ms scheduler steps covering at least five minutes
both timers have been stopped, the waiting indicator is cleared, the
retryable timeout error is surfaced, the poll requests are exactly one per
100ms interval strictly before the timeout (2999 of them), and no poll
request is ever issued at or after the timeout instant. -/
theorem passkey_poll_timeout_boundary (n : Nat) (hn : 3000 ≤ n) :
    PASSKEY_POLL_INTERVAL = 100 ∧ PASSKEY_TIMEOUT = 5 * 60 * 1000 ∧
    (runTimedPoll n timedPollStart).intervalActive = false ∧
    (runTimedPoll n timedPollStart).timeoutActive = false ∧
    (runTimedPoll n timedPollStart).loading = false ∧
    (runTimedPoll n timedPollStart).error =
      some "Passkey verification timed out. Please try again." ∧
    (runTimedPoll n timedPollStart).pollCalls = pollSchedule 2999 ∧
    (runTimedPoll n timedPollStart).pollCalls.length =
      PASSKEY_TIMEOUT / PASSKEY_POLL_INTERVAL - 1 ∧
    ∀ t ∈ (runTimedPoll n timedPollStart).pollCalls,
      0 < t ∧ t < PASSKEY_TIMEOUT ∧ t % PASSKEY_POLL_INTERVAL = 0 := by
  obtain ⟨m, rfl⟩ : ∃ m, n = 3000 + m := ⟨n - 3000, by omega⟩
  rw [runTimedPoll_after, runTimedPoll_timeout]
  refine ⟨rfl, rfl, rfl, rfl, rfl, rfl, rfl, ?_, ?_⟩
  · simp [pollSchedule_length, PASSKEY_TIMEOUT, PASSKEY_POLL_INTERVAL]
  · intro t ht
    obtain ⟨h1, h2, h3⟩ := pollSchedule_mem 2999 t ht
    refine ⟨h1, ?_, h3⟩
    have : PASSKEY_POLL_INTERVAL * 2999 < PASSKEY_TIMEOUT := by
      simp [PASSKEY_TIMEOUT, PASSKEY_POLL_INTERVAL]
    omega

/-- C8 witness at the concrete boundary of exactly five minutes. -/
theorem passkey_poll_timeout_boundary_witness :
    3000 ≤ 3000 ∧
    (runTimedPoll 3000 timedPollStart).error =
      some "Passkey verification timed out. Please try again." :=
  ⟨le_refl 3000,
   (passkey_poll_timeout_boundary 3000 (le_refl 3000)).2.2.2.2.2.1⟩

/-- The email OTT verification handler (`handleOTTSubmit` in `App.tsx`).
`verifyResult` is the outcome of the awaited `verifyEmail` call. Branches on
the second factors present in the response; with key attributes and an
encrypted token it moves to password-decrypt; with only a plain token it
stashes the token and moves directly to success. -/
def handleOTTSubmit (verifyResult : Except JsValue EmailVerificationResponse)
    (s : AppState) : AppState × List Effect :=
  if jsTrim s.ottCode = "" then (s, []) else
  let s1 : AppState := { s with error := none, loading := true }
  let call : List Effect := [Effect.netVerifyEmail (jsTrim s.email) (jsTrim s.ottCode)]
  match verifyResult with
  | .error e =>
    ({ s1 with loading := false, error := some (jsErrorMessage e "Verification failed") }, call)
  | .ok response =>
    let hasPasskey := jsTruthyStr response.passkeySessionID
    let hasTOTP := jsTruthyStr response.twoFactorSessionID ∨
      jsTruthyStr response.twoFactorSessionIDV2
    let effectiveTwoFactorSessionID :=
      jsOrStr response.twoFactorSessionID response.twoFactorSessionIDV2
    let stash : AppState → AppState := fun s2 =>
      let s3 := if jsTruthyStr response.encryptedToken
        then { s2 with stashedEncryptedToken := response.encryptedToken } else s2
      match response.keyAttributes with
      | some ka => { s3 with stashedKeyAttributes := some ka }
      | none => s3
    if hasPasskey ∧ hasTOTP then
      ({ stash { s1 with passkeySessionID := response.passkeySessionID,
                         twoFactorSessionID := effectiveTwoFactorSessionID } with
         loading := false, step := Step.passkeyChoice }, call)
    else if hasPasskey then
      let s4 : AppState :=
        { stash { s1 with passkeySessionID := response.passkeySessionID } with
          step := Step.passkey }
      match response.passkeySessionID with
      | some sid =>
        let r := startPasskeyVerification sid s4
        (r.1, call ++ r.2)
      | none => (s4, call)
    else if hasTOTP then
      ({ stash { s1 with twoFactorSessionID := effectiveTwoFactorSessionID } with
         loading := false, step := Step.twoFactor }, call)
    else if response.keyAttributes.isSome ∧ jsTruthyStr response.encryptedToken then
      ({ s1 with stashedKeyAttributes := response.keyAttributes,
                 stashedEncryptedToken := response.encryptedToken,
                 loading := false, step := Step.passwordDecrypt }, call)
    else if jsTruthyStr response.token then
      ({ s1 with stashedToken := response.token,
                 loading := false, step := Step.success }, call)
    else
      ({ s1 with loading := false, error := some "Unexpected verification response" }, call)

/-- C9: evaluation at the failing input. On the rare email-ott plain-token
path — verify-email returning only `{token: "abc"}` with no key attributes,
encrypted token or second-factor session — the machine transitions directly
to success, merely stashing the token in component state, and the effect
trace contains no LOGIN_COMPLETE handoff to the session layer. -/
theorem ott_plain_token_success_without_handoff :
    (handleOTTSubmit
      (.ok ⟨4, none, none, some "abc", none, none, none⟩)
      { initialAppState with
        step := Step.emailOtt, email := "user@x.io",
        ottCode := "654321" }).1.step = Step.success ∧
    (handleOTTSubmit
      (.ok ⟨4, none, none, some "abc", none, none, none⟩)
      { initialAppState with
        step := Step.emailOtt, email := "user@x.io",
        ottCode := "654321" }).1.stashedToken = some "abc" ∧
    loginCompletions (handleOTTSubmit
      (.ok ⟨4, none, none, some "abc", none, none, none⟩)
      { initialAppState with
        step := Step.emailOtt, email := "user@x.io",
        ottCode := "654321" }).2 = 0 := by
  decide

/-- Display metadata of a code (`CodeDisplay` in `shared/types.ts`). -/
structure CodeDisplay where
  trashed : Option Bool
  pinned : Option Bool
  note : Option String
  tags : Option (List String)
  deriving DecidableEq, Repr

/-- A parsed OTP code entry (`Code` in `shared/types.ts`); the `type` field
is named `kind` because `type` is reserved in Lean. -/
structure Code where
  id : String
  kind : String
  account : Option String
  issuer : String
  length : Nat
  period : Nat
  algorithm : String
  counter : Option Nat
  secret : String
  codeDisplay : Option CodeDisplay
  uriString : String
  deriving DecidableEq, Repr

/-- Modelled from the spec: the Session Key Lifecycle Manager
(`background/auth.ts`, imported by `background/sync.ts` as `./auth`) is not
among the provided sources; only its callers are. Per spec section 4.5,
`completeLogin` persists the token and the master key (logged in and
unlocked), `lock` discards only the master key (logged in but locked) and
`logout` discards everything (logged out); the session store therefore
holds an optional token and an optional master key. -/
structure AuthSession where
  token : Option String
  masterKey : Option String
  deriving DecidableEq, Repr

/-- Modelled from the spec: `getToken` of `./auth` reads the stored bearer token. -/
def getToken (a : AuthSession) : Option String := a.token

/-- Modelled from the spec: `getMasterKey` of `./auth` reads the stored master key. -/
def getMasterKey (a : AuthSession) : Option String := a.masterKey

/-- Modelled from the spec: `isUnlocked` of `./auth` holds exactly when both
the token and the master key are available — the logged-in-and-unlocked
state of the section 4.5 lifecycle. -/
def isUnlocked (a : AuthSession) : Bool :=
  jsTruthyStr (getToken a) && jsTruthyStr (getMasterKey a)

/-- JavaScript truthiness of an optional number: `undefined` and `0` are falsy. -/
def jsTruthyNat (o : Option Nat) : Bool :=
  match o with
  | some n => n ≠ 0
  | none => false

/-- Observable effects of the sync module: the remote fetch and cache writes. -/
inductive SyncEffect where
  | netGetAuthCodes (token masterKey : String)
  | writeCodes (codes : List Code)
  | writeTimeOffset (off : Int)
  | writeSyncTimestamp (t : Nat)
  deriving DecidableEq, Repr

/-- Environment of a sync call: the current time, the stored sync interval
setting and cache, and the outcome the remote `getAuthCodes` call would
have if issued. -/
structure SyncEnv where
  nowMs : Nat
  syncIntervalMinutes : Nat
  syncTimestamp : Option Nat
  cachedCodes : Option (List Code)
  authCodesResult : Except JsValue (List Code × Option Int)

/-- Sync codes from remote (`syncCodes` in `background/sync.ts`): when the
token or the master key is unavailable (`if (!token || !masterKey)`) it
returns the empty list without any network call; otherwise it fetches,
caches the codes, stores the time offset when defined, stamps the sync time
and returns the codes, rethrowing fetch errors. -/
def syncCodes (a : AuthSession) (env : SyncEnv) :
    List SyncEffect × Except JsValue (List Code) :=
  match getToken a, getMasterKey a with
  | some token, some masterKey =>
    if token ≠ "" ∧ masterKey ≠ "" then
      match env.authCodesResult with
      | .error e => ([SyncEffect.netGetAuthCodes token masterKey], .error e)
      | .ok res =>
        let offEffs : List SyncEffect :=
          match res.2 with
          | some off => [SyncEffect.writeTimeOffset off]
          | none => []
        ([SyncEffect.netGetAuthCodes token masterKey, SyncEffect.writeCodes res.1] ++
          offEffs ++ [SyncEffect.writeSyncTimestamp env.nowMs], .ok res.1)
    else ([], .ok [])
  | _, _ => ([], .ok [])

/-- Get cached codes, syncing if necessary (`getCodes` in
`background/sync.ts`): a session that is not unlocked gets the empty list
immediately; otherwise sync when forced, never synced, or stale (falling
back to the cache on failure), and re-sync when the cache is missing or
empty. -/
def getCodes (a : AuthSession) (env : SyncEnv) (forceSync : Bool) :
    List SyncEffect × List Code :=
  if ¬ isUnlocked a then ([], [])
  else
    let lastSync := env.syncTimestamp
    let syncIntervalMs := env.syncIntervalMinutes * 60 * 1000
    let needsSync : Bool := forceSync || !(jsTruthyNat lastSync) ||
      decide (syncIntervalMs < env.nowMs - lastSync.getD 0)
    if needsSync then
      match syncCodes a env with
      | (effs, .ok codes) => (effs, codes)
      | (effs, .error _) => (effs, env.cachedCodes.getD [])
    else
      let cached := env.cachedCodes
      if cached = none ∨ cached = some ([] : List Code) then
        match syncCodes a env with
        | (effs, .ok codes) => (effs, codes)
        | (effs, .error _) => (effs, [])
      else ([], cached.getD [])

/-- C10: while the session is not unlocked (logged out or vault locked),
every `getCodes` call returns the empty list with no effect at all, and
`syncCodes` returns the empty list without contacting the server. -/
theorem locked_session_exposes_no_codes (a : AuthSession) (env : SyncEnv)
    (forceSync : Bool) (h : isUnlocked a = false) :
    getCodes a env forceSync = ([], []) ∧
    (syncCodes a env).2 = .ok [] ∧
    (∀ t mk, SyncEffect.netGetAuthCodes t mk ∉ (syncCodes a env).1) ∧
    (∀ t mk, SyncEffect.netGetAuthCodes t mk ∉ (getCodes a env forceSync).1) := by
  have hget : getCodes a env forceSync = ([], []) := by
    unfold getCodes
    simp [h]
  have hsync : syncCodes a env = ([], .ok []) := by
    unfold syncCodes getToken getMasterKey
    unfold isUnlocked getToken getMasterKey jsTruthyStr at h
    rcases ht : a.token with _ | t <;> rcases hm : a.masterKey with _ | mk <;>
      simp_all
  refine ⟨hget, ?_, ?_, ?_⟩
  · rw [hsync]
  · rw [hsync]; intro t mk; simp
  · rw [hget]; intro t mk; simp

/-- C10 witness at a concrete locked session (token present, master key
discarded by lock). -/
theorem locked_session_exposes_no_codes_witness :
    isUnlocked ⟨some "tok1", none⟩ = false ∧
    getCodes ⟨some "tok1", none⟩ ⟨0, 5, none, none, .ok ([], none)⟩ true = ([], []) :=
  ⟨rfl,
   (locked_session_exposes_no_codes ⟨some "tok1", none⟩
      ⟨0, 5, none, none, .ok ([], none)⟩ true rfl).1⟩

end EnteAuth
